import Mathlib

/-!
Verification of the artistic-weather-forecast worker (src/worker.js).

The worker is a sequential HTTP pipeline: resolve a location to coordinates
and a forecast (fetchWeatherData), turn the forecast into an art prompt via a
text model (generateArtPrompt), render the prompt via an image model and
normalize the response shape (generateArtwork), with two HTTP handlers
(handleWeatherRequest, handleArtGeneration) on top.

The external HTTP/AI calls are modelled by passing the parsed upstream
responses in as explicit arguments; each function additionally returns the
list of outbound calls it issued (URL strings, or structured call records),
so that claims about which calls are made and what flows into them can be
stated.  JS numbers that the code only passes through or formats are
modelled as `Rat`; JS exceptions are modelled as `Except String`.
-/

/-- JS `Math.round`: round half toward positive infinity. -/
def jsRound (q : Rat) : Int := (q + 1/2).floor

/-- Model of JS number-to-string conversion, used inside outbound URL
strings, the prompt body, and the RangeError message of `jsToIndex`:
integral values print exactly as JS does (plain signed digits);
non-integral values fall back to Lean's `Rat` printing, and no theorem
pins a string containing one. -/
def jsNumberToString (q : Rat) : String :=
  if q.den = 1 then toString q.num else toString q

/-- Does the first list occur as a prefix of the second? -/
def listStartsWith : List Char → List Char → Bool
  | [], _ => true
  | _ :: _, [] => false
  | a :: as, b :: bs => a = b && listStartsWith as bs

/-- Does the first list occur as a contiguous sublist of the second? -/
def listHasInfix (sub : List Char) : List Char → Bool
  | [] => sub.isEmpty
  | c :: rest => listStartsWith sub (c :: rest) || listHasInfix sub rest

/-- JS `String.prototype.includes`: substring test. -/
def jsIncludes (s sub : String) : Bool := listHasInfix sub.toList s.toList

/-- The standard base64 alphabet. -/
def base64Alphabet : List Char :=
  "ABCDEFGHIJKLMNOPQRSTUVWXYZabcdefghijklmnopqrstuvwxyz0123456789+/".toList

/-- The n-th base64 alphabet character. -/
def base64Char (n : Nat) : Char := base64Alphabet.getD n 'A'

/-- Base64 encoding of a byte list, as computed in the worker by
`btoa(String.fromCharCode(...bytes))`.  Bytes are reduced mod 256 (a
`Uint8Array` cell can hold nothing larger). -/
def base64Encode : List Nat → String
  | [] => ""
  | [b1] =>
    let n := (b1 % 256) * 65536
    String.mk [base64Char (n / 262144), base64Char (n / 4096 % 64), '=', '=']
  | [b1, b2] =>
    let n := (b1 % 256) * 65536 + (b2 % 256) * 256
    String.mk [base64Char (n / 262144), base64Char (n / 4096 % 64),
               base64Char (n / 64 % 64), '=']
  | b1 :: b2 :: b3 :: rest =>
    let n := (b1 % 256) * 65536 + (b2 % 256) * 256 + (b3 % 256)
    String.mk [base64Char (n / 262144), base64Char (n / 4096 % 64),
               base64Char (n / 64 % 64), base64Char (n % 64)] ++ base64Encode rest

/-- UTF-8 encoding of a single character (byte list). -/
def utf8EncodeChar (c : Char) : List Nat :=
  let n := c.toNat
  if n < 128 then [n]
  else if n < 2048 then [192 + n / 64, 128 + n % 64]
  else if n < 65536 then [224 + n / 4096, 128 + n / 64 % 64, 128 + n % 64]
  else [240 + n / 262144, 128 + n / 4096 % 64, 128 + n / 64 % 64, 128 + n % 64]

/-- The n-th uppercase hexadecimal digit. -/
def hexDigit (n : Nat) : Char := "0123456789ABCDEF".toList.getD n '0'

/-- Characters `encodeURIComponent` leaves unescaped: ASCII alphanumerics and
`- _ . ! ~ * ' ( )`. -/
def uriUnreserved (c : Char) : Bool :=
  c.isAlphanum || c ∈ ['-', '_', '.', '!', '~', '*', Char.ofNat 39, '(', ')']

/-- Model of JS `encodeURIComponent`: unreserved characters pass through,
every other character is replaced by the percent-encoding of its UTF-8
bytes. -/
def encodeURIComponentModel (s : String) : String :=
  String.join (s.toList.map fun c =>
    if uriUnreserved c then String.singleton c
    else String.join ((utf8EncodeChar c).map fun b =>
      String.mk ['%', hexDigit (b / 16 % 16), hexDigit (b % 16)]))

/-- The value of a list of decimal digit characters. -/
def digitsToNat (l : List Char) : Nat :=
  l.foldl (fun acc c => acc * 10 + (c.toNat - 48)) 0

/-- Value of a digit character in radix ≤ 16 (`0-9`, `a-f`, `A-F`), `none`
otherwise. -/
def hexDigitVal (c : Char) : Option Nat :=
  if c.isDigit then some (c.toNat - 48)
  else if 'a' ≤ c ∧ c ≤ 'f' then some (c.toNat - 87)
  else if 'A' ≤ c ∧ c ≤ 'F' then some (c.toNat - 55)
  else none

/-- Digits of a non-decimal radix literal (hex / octal / binary): `none`
when empty or containing a digit invalid for the radix. -/
def parseRadixDigits (radix : Nat) (l : List Char) : Option Nat :=
  match l with
  | [] => none
  | _ => l.foldl (fun acc c =>
      match acc, hexDigitVal c with
      | some a, some d => if d < radix then some (a * radix + d) else none
      | _, _ => none) (some 0)

/-- A JS number as far as `ToIndex` can observe it: NaN, an infinity, or a
finite value.  Finite values are kept as exact rationals; the IEEE-754
rounding that JS applies to string literals is not modelled (it cannot
change `ToIndex` results for the short literals the theorems use). -/
inductive JSNum where
  | nan
  | posInf
  | negInf
  | val (q : Rat)
deriving DecidableEq, Repr

/-- A nonempty run of decimal digits consuming the whole list. -/
def decDigitsOf (l : List Char) : Option Nat :=
  if l ≠ [] ∧ l.all Char.isDigit then some (digitsToNat l) else none

/-- The ExponentPart remainder of a decimal literal: `[]` means no exponent
(0); otherwise `e`/`E`, an optional sign, and decimal digits must consume
the whole remainder. -/
def parseExponent : List Char → Option Int
  | [] => some 0
  | c :: rest =>
    if c = 'e' ∨ c = 'E' then
      match rest with
      | '+' :: ds => (decDigitsOf ds).map (fun n => (n : Int))
      | '-' :: ds => (decDigitsOf ds).map (fun n => -(n : Int))
      | ds => (decDigitsOf ds).map (fun n => (n : Int))
    else none

/-- Value of a decimal literal with integer digits `ip`, fraction digits
`fp` and exponent `ex`. -/
def decimalValue (ip fp : List Char) (ex : Int) : Rat :=
  let m : Nat := digitsToNat (ip ++ fp)
  let e : Int := ex - fp.length
  if 0 ≤ e then ((m * 10 ^ e.toNat : Nat) : Rat)
  else (m : Rat) / ((10 ^ (-e).toNat : Nat) : Rat)

/-- StrUnsignedDecimalLiteral minus the Infinity case:
`DecimalDigits [ . DecimalDigits? ] [ExponentPart]` or
`. DecimalDigits [ExponentPart]`; `none` = not a valid literal. -/
def parseUnsignedDecimal (l : List Char) : Option Rat :=
  let (ip, rest1) := l.span Char.isDigit
  match rest1 with
  | '.' :: rest2 =>
    let (fp, rest3) := rest2.span Char.isDigit
    if ip = [] ∧ fp = [] then none
    else (parseExponent rest3).map fun ex => decimalValue ip fp ex
  | rest =>
    if ip = [] then none
    else (parseExponent rest).map fun ex => decimalValue ip [] ex

/-- An unsigned decimal literal or `Infinity`, with the sign applied. -/
def parseUnsignedNum (l : List Char) (neg : Bool) : JSNum :=
  if l = "Infinity".toList then (if neg then .negInf else .posInf)
  else match parseUnsignedDecimal l with
    | none => .nan
    | some q => .val (if neg then -q else q)

/-- StrDecimalLiteral: an optional sign followed by an unsigned decimal
literal or `Infinity`. -/
def parseSignedDecimal (t : List Char) : JSNum :=
  match t with
  | '+' :: rest => parseUnsignedNum rest false
  | '-' :: rest => parseUnsignedNum rest true
  | _ => parseUnsignedNum t false

/-- JS `ToNumber` on a primitive string (the StringNumericLiteral grammar):
trim whitespace (approximated by `Char.isWhitespace`; exotic Unicode spaces
are not modelled), the empty string is 0, an unsigned `0x`/`0X`, `0o`/`0O`
or `0b`/`0B` radix literal, or a signed decimal literal / `Infinity`;
everything else is NaN. -/
def jsToNumber (s : String) : JSNum :=
  let t := ((s.toList.dropWhile Char.isWhitespace).reverse.dropWhile
    Char.isWhitespace).reverse
  match t with
  | [] => .val 0
  | '0' :: x :: rest =>
    if x = 'x' ∨ x = 'X' then
      match parseRadixDigits 16 rest with
      | some n => .val (n : Rat)
      | none => .nan
    else if x = 'o' ∨ x = 'O' then
      match parseRadixDigits 8 rest with
      | some n => .val (n : Rat)
      | none => .nan
    else if x = 'b' ∨ x = 'B' then
      match parseRadixDigits 2 rest with
      | some n => .val (n : Rat)
      | none => .nan
    else parseSignedDecimal ('0' :: x :: rest)
  | t' => parseSignedDecimal t'

/-- Truncation toward zero (`ToIntegerOrInfinity` on a finite value). -/
def ratTrunc (q : Rat) : Int := if q < 0 then -((-q).floor) else q.floor

/-- JS `ToIndex`: NaN is 0; a value whose truncation falls outside
[0, 2^53 - 1] (negatives and infinities included) throws a RangeError.
The thrown message follows V8's wording; its number formatting is
reproduced exactly for integral values (`jsNumberToString`), the only ones
at which a theorem pins the message. -/
def jsToIndex : JSNum → Except String Nat
  | .nan => .ok 0
  | .posInf => .error "Invalid typed array length: Infinity"
  | .negInf => .error "Invalid typed array length: -Infinity"
  | .val q =>
    let i := ratTrunc q
    if i < 0 ∨ (9007199254740991 : Int) < i then
      .error ("Invalid typed array length: " ++ jsNumberToString q)
    else .ok i.toNat

/-- `new Uint8Array(s)` for a primitive string `s`: the string is not data
but a length, `ToIndex(ToNumber(s))`, and the array is zero-filled; a
RangeError from `ToIndex` propagates.  (Engine allocation and
argument-spread limits are not modelled, here as on the other buffer
paths.) -/
def jsUint8ArrayOfString (s : String) : Except String (List Nat) :=
  (jsToIndex (jsToNumber s)).map fun n => List.replicate n 0

/-! ## Data model -/

/-- One entry of the geocoding provider's match list. -/
structure GeoMatch where
  lat : Rat
  lon : Rat
  name : String
  country : String
deriving DecidableEq, Repr

/-- One entry of a forecast item's `weather` array. -/
structure WeatherInfo where
  description : String
  main : String
  icon : String
deriving DecidableEq, Repr, Inhabited

/-- One entry of the forecast provider's `list` array (the fields the worker
reads: `dt_txt`, `main.temp/humidity/pressure`, `weather[0]`, `wind`,
`clouds.all`). -/
structure ForecastItem where
  dt_txt : String
  temp : Rat
  humidity : Int
  pressure : Int
  weather : List WeatherInfo
  windSpeed : Rat
  windDeg : Int
  cloudsAll : Int
deriving DecidableEq, Repr

/-- One processed forecast entry, as built by `fetchWeatherData`. -/
structure ForecastPoint where
  datetime : String
  temperature : Int
  humidity : Int
  pressure : Int
  description : String
  main : String
  icon : String
  windSpeed : Rat
  windDirection : Int
  clouds : Int
deriving DecidableEq, Repr

/-- Coordinates copied from the first geocoding match. -/
structure Coordinates where
  lat : Rat
  lon : Rat
deriving DecidableEq, Repr

/-- The processed weather data returned by `fetchWeatherData`. -/
structure WeatherReport where
  location : String
  coordinates : Coordinates
  forecast : List ForecastPoint
deriving DecidableEq, Repr

/-- A JS value that can sit in the `image`, `result.image` or `data` field of
an image-model response: a primitive string, a `Uint8Array`, or an
`ArrayBuffer` (both kinds of buffer carry their byte contents). -/
inductive JSVal where
  | str (s : String)
  | u8 (bytes : List Nat)
  | abuf (bytes : List Nat)
deriving DecidableEq, Repr

/-- A plain-object image-model response: the three properties the worker
probes (`none` = property absent; for `result`, the outer layer is the
`result` property and the inner layer its `image` property), plus the names
of any further enumerable keys (they only influence `Object.keys`).  Key
order is modelled as insertion order `image`, `result`, `data`, then the
extra keys. -/
structure JSObj where
  image : Option JSVal
  result : Option (Option JSVal)
  data : Option JSVal
  extraKeys : List String
deriving DecidableEq, Repr

/-- An image-model (`env.AI.run`) response: JS null/undefined, a raw
`Uint8Array`, a raw `ArrayBuffer`, or a plain object. -/
inductive AIResponse where
  | jsNull
  | uint8 (bytes : List Nat)
  | arrayBuf (bytes : List Nat)
  | obj (o : JSObj)
deriving DecidableEq, Repr

/-- The parsed body of the text-model (Gemini) HTTP response, restricted to
the paths the worker reads: `response.ok`, `data.error?.message`, and
`data.candidates[0].content.parts[0].text` (`none` models an absent path). -/
structure GeminiResponse where
  ok : Bool
  errorMessage : Option String
  candidateText : Option String
deriving DecidableEq, Repr

/-- JS truthiness for the field values above: the empty string is falsy,
every buffer object is truthy. -/
def truthyJS : JSVal → Bool
  | .str s => s ≠ ""
  | .u8 _ => true
  | .abuf _ => true

/-- Truthiness of a possibly-absent field (`undefined` is falsy). -/
def truthyOpt : Option JSVal → Bool
  | none => false
  | some v => truthyJS v

/-- `Object.keys` of a modelled plain object. -/
def objKeys (o : JSObj) : List String :=
  (if o.image.isSome then ["image"] else []) ++
  (if o.result.isSome then ["result"] else []) ++
  (if o.data.isSome then ["data"] else []) ++ o.extraKeys

/-- The parameter object passed to `env.AI.run` (`none` = key absent). -/
structure ModelParams where
  prompt : String
  num_steps : Nat
  guidance : Option Rat
  strength : Option Nat
deriving DecidableEq, Repr

/-- The result of the JS lookup `models[style] || models['stable-diffusion']`
in `getModelByStyle`: either a model-identifier string, or — when `style`
names an inherited `Object.prototype` member such as `"toString"` — that
inherited (truthy, non-string) value. -/
inductive JSModelName where
  | str (s : String)
  | inheritedFn (propName : String)
deriving DecidableEq, Repr

/-- Enumerable-or-not own property names of `Object.prototype`, all of whose
values are truthy (functions, or `Object.prototype` itself for
`__proto__`), so `models[style] ||` does not fall back on them. -/
def objectPrototypeProps : List String :=
  ["constructor", "hasOwnProperty", "isPrototypeOf", "propertyIsEnumerable",
   "toLocaleString", "toString", "valueOf", "__defineGetter__",
   "__defineSetter__", "__lookupGetter__", "__lookupSetter__", "__proto__"]

/-- The client-supplied `weatherData` of a POST /api/generate-art request
(the fields the handler reads before and during validation; `forecast` is
`none` when the property is absent or null). -/
structure ArtWeatherData where
  location : String
  forecast : Option (List ForecastPoint)
deriving DecidableEq, Repr

/-- The parsed body of a POST /api/generate-art request. -/
structure ArtRequest where
  weatherData : Option ArtWeatherData
  artisticStyle : String
deriving DecidableEq, Repr

/-- The JSON body of a POST /api/weather response. -/
inductive WeatherBody where
  | report (r : WeatherReport)
  | err (error : String)
deriving DecidableEq, Repr

/-- The JSON body of a POST /api/generate-art response: the success envelope
`{artPrompt, imageUrl, weatherData, debug:{promptLength, style, timestamp}}`
or the failure envelope `{error, stack, timestamp}`. -/
inductive ArtBody where
  | ok (artPrompt : String) (imageUrl : String) (weather : ArtWeatherData)
       (promptLength : Nat) (style : String) (timestamp : String)
  | err (error : String) (stack : String) (timestamp : String)
deriving DecidableEq, Repr

/-- An outbound call made while serving /api/generate-art: the Gemini fetch
(carrying the `x-goog-api-key` header value and the prompt in its body) or
the `env.AI.run` invocation. -/
inductive ArtCall where
  | gemini (apiKey : String) (prompt : String)
  | aiRun (modelName : String) (params : ModelParams)
deriving DecidableEq, Repr

/-! ## Operations -/

/-- The per-item mapping applied by `fetchWeatherData` to
`weatherData.list.slice(0, 8)`.  Reading `item.weather[0]` of an empty
`weather` array throws a TypeError in JS, modelled as `none`. -/
def mapForecastItemJS (it : ForecastItem) : Option ForecastPoint :=
  match it.weather with
  | [] => none
  | w :: _ => some
      { datetime := it.dt_txt
        temperature := jsRound it.temp
        humidity := it.humidity
        pressure := it.pressure
        description := w.description
        main := w.main
        icon := w.icon
        windSpeed := it.windSpeed
        windDirection := it.windDeg
        clouds := it.cloudsAll }

/-- `slice(0,8).map(...)` over the provider's interval list; `none` as soon
as one item throws. -/
def mapForecastList : List ForecastItem → Option (List ForecastPoint)
  | [] => some []
  | it :: rest =>
    match mapForecastItemJS it with
    | none => none
    | some p =>
      match mapForecastList rest with
      | none => none
      | some ps => some (p :: ps)

/-- `fetchWeatherData(location, apiKey)`, with the two upstream HTTP
responses passed in as `geoData` (the parsed geocoding match list) and
`weatherList` (the parsed forecast interval list).  Returns the thrown-or-ok
outcome together with the list of outbound request URLs actually issued, in
order. -/
def fetchWeatherData (location apiKey : String) (geoData : List GeoMatch)
    (weatherList : List ForecastItem) : Except String WeatherReport × List String :=
  let geocodingUrl := "https://api.openweathermap.org/geo/1.0/direct?q=" ++
    encodeURIComponentModel location ++ "&limit=1&appid=" ++ apiKey
  match geoData with
  | [] => (.error "Location not found", [geocodingUrl])
  | g :: _ =>
    let weatherUrl := "https://api.openweathermap.org/data/2.5/forecast?lat=" ++
      jsNumberToString g.lat ++ "&lon=" ++ jsNumberToString g.lon ++
      "&appid=" ++ apiKey ++ "&units=metric"
    match mapForecastList (weatherList.take 8) with
    | none =>
      (.error "Cannot read properties of undefined (reading 'description')",
       [geocodingUrl, weatherUrl])
    | some points =>
      (.ok { location := g.name ++ ", " ++ g.country
             coordinates := { lat := g.lat, lon := g.lon }
             forecast := points }, [geocodingUrl, weatherUrl])

/-- `handleWeatherRequest`, with the parsed request body (`location` is
`none` when the field is absent) and the two upstream responses passed in.
Returns HTTP status, JSON body, and the outbound request URLs. -/
def handleWeatherRequest (location : Option String) (apiKey : String)
    (geoData : List GeoMatch) (weatherList : List ForecastItem) :
    Nat × WeatherBody × List String :=
  match location with
  | none => (400, .err "Location is required", [])
  | some loc =>
    if loc = "" then (400, .err "Location is required", [])
    else
      let fetched := fetchWeatherData loc apiKey geoData weatherList
      match fetched.1 with
      | .ok r => (200, .report r, fetched.2)
      | .error m => (500, .err m, fetched.2)

/-- The fixed instruction template of `generateArtPrompt`, part before the
interpolated location. -/
def artPromptHeader : String :=
  "Transform this weather forecast into an artistic concept for image generation. Focus on the WEATHER PHENOMENA themselves, not decorative elements or settings.\n\nWeather Data for "

/-- The fixed instruction template of `generateArtPrompt`, part after the
interpolated weather summary. -/
def artPromptFooter : String :=
  "\n\nCreate a detailed artistic prompt that captures the essence and patterns of these weather conditions. Think about:\n- Visual metaphors for temperature variations\n- Artistic representation of weather phenomena (rain, clouds, wind, etc.)\n- Color palettes that reflect the atmospheric conditions\n- Abstract or impressionistic interpretations of meteorological data\n- Dynamic elements that show weather changes over time\n\nRespond with a concise but vivid artistic prompt (under 200 words) that focuses purely on weather phenomena visualization, not landscapes or environments."

/-- One line of the weather summary built by `generateArtPrompt`. -/
def weatherSummaryLine (f : ForecastPoint) : String :=
  f.datetime ++ ": " ++ f.description ++ ", " ++ toString f.temperature ++
  "°C, humidity " ++ toString f.humidity ++ "%, wind " ++
  jsNumberToString f.windSpeed ++ "m/s"

/-- The full prompt text sent to the text model. -/
def buildArtPrompt (weatherLocation : String) (forecast : List ForecastPoint) : String :=
  artPromptHeader ++ weatherLocation ++ ":\n" ++
  String.intercalate "\n" (forecast.map weatherSummaryLine) ++ artPromptFooter

/-- `generateArtPrompt(weatherData, geminiApiKey)`, with the parsed upstream
response passed in as `resp`.  Returns the thrown-or-ok outcome together
with the outbound Gemini call record (API-key header and prompt body).  On
`!response.ok` the thrown message is
`Gemini API error: ${data.error?.message || 'Unknown error'}`; on a success
response the first candidate's text is returned verbatim (an absent
candidate path would throw a TypeError, modelled by the `none` case). -/
def generateArtPrompt (weatherLocation : String) (forecast : List ForecastPoint)
    (geminiApiKey : String) (resp : GeminiResponse) : Except String String × ArtCall :=
  let prompt := buildArtPrompt weatherLocation forecast
  let call := ArtCall.gemini geminiApiKey prompt
  if resp.ok then
    match resp.candidateText with
    | some t => (.ok t, call)
    | none => (.error "Cannot read properties of undefined (reading 'content')", call)
  else
    (.error ("Gemini API error: " ++
      (match resp.errorMessage with
       | some m => if m = "" then "Unknown error" else m
       | none => "Unknown error")), call)

/-- `getModelByStyle(style)`: the table lookup
`models[style] || models['stable-diffusion']`.  In JS the bracket lookup on
the object literal also finds the inherited `Object.prototype` members,
which are truthy non-strings, so those twelve property names do not fall
back to the default. -/
def getModelByStyle (style : String) : JSModelName :=
  if style = "stable-diffusion" then .str "@cf/stabilityai/stable-diffusion-xl-base-1.0"
  else if style = "flux" then .str "@cf/black-forest-labs/flux-1-schnell"
  else if style = "dreamshaper" then .str "@cf/lykon/dreamshaper-8-lcm"
  else if style = "realistic" then .str "@cf/bytedance/stable-diffusion-xl-lightning"
  else if style ∈ objectPrototypeProps then .inheritedFn style
  else .str "@cf/stabilityai/stable-diffusion-xl-base-1.0"

/-- `getModelParameters(modelName, prompt)`: parameter shaping by substring
of the model identifier. -/
def getModelParameters (modelName prompt : String) : ModelParams :=
  if jsIncludes modelName "flux" then
    { prompt := prompt, num_steps := 4, guidance := none, strength := none }
  else if jsIncludes modelName "lightning" then
    { prompt := prompt, num_steps := 8, guidance := none, strength := none }
  else if jsIncludes modelName "dreamshaper" then
    { prompt := prompt, num_steps := 8, guidance := (7.5 : Rat), strength := none }
  else
    { prompt := prompt, num_steps := 20, guidance := (7.5 : Rat), strength := some 1 }

/-- Payload encoding of the `response.image` branch: a `Uint8Array` is
base64-encoded, a string is used as the base64 content unchanged, anything
else goes through `new Uint8Array(...)` first (for an `ArrayBuffer`, its
bytes). -/
def encodeImageField : JSVal → String
  | .u8 bytes => base64Encode bytes
  | .str s => s
  | .abuf bytes => base64Encode bytes

/-- Payload encoding of the `response.result.image` branch: a string is used
unchanged, anything else goes through `new Uint8Array(...)` and is
base64-encoded. -/
def encodeResultImageField : JSVal → String
  | .str s => s
  | .u8 bytes => base64Encode bytes
  | .abuf bytes => base64Encode bytes

/-- Payload encoding of the `response.data` branch: the value always goes
through `new Uint8Array(response.data)` — there is no string case, so a
string is coerced via `jsUint8ArrayOfString` to a zero-filled array (or a
RangeError throw, which propagates). -/
def encodeDataField : JSVal → Except String String
  | .str s => (jsUint8ArrayOfString s).map base64Encode
  | .u8 bytes => .ok (base64Encode bytes)
  | .abuf bytes => .ok (base64Encode bytes)

/-- The shape-normalization chain of `generateArtwork` applied to a plain
object response: `response.image`, then `response.result?.image`, then
`response.data`, first truthy match wins; otherwise the throw of
`No image data in AI response`. -/
def normalizeObjResponse (o : JSObj) : Except String String :=
  if truthyOpt o.image then
    .ok ("data:image/png;base64," ++ encodeImageField (o.image.getD (.str "")))
  else if truthyOpt (o.result.getD none) then
    .ok ("data:image/png;base64," ++ encodeResultImageField ((o.result.getD none).getD (.str "")))
  else if truthyOpt o.data then
    match encodeDataField (o.data.getD (.str "")) with
    | .ok payload => .ok ("data:image/png;base64," ++ payload)
    | .error e => .error e
  else
    .error ("No image data in AI response. Response keys: " ++
      String.intercalate ", " (objKeys o))

/-- Shape normalization for a whole `env.AI.run` response: null is rejected,
a raw `Uint8Array` or `ArrayBuffer` is base64-encoded directly, and a plain
object goes through the property chain.  Error messages are the raw thrown
messages, before the catch-all rewrap. -/
def normalizeAIResponse : AIResponse → Except String String
  | .jsNull => .error "No response from AI model"
  | .uint8 bytes => .ok ("data:image/png;base64," ++ base64Encode bytes)
  | .arrayBuf bytes => .ok ("data:image/png;base64," ++ base64Encode bytes)
  | .obj o => normalizeObjResponse o

/-- `generateArtwork(prompt, style, env)`, with the `env.AI.run` response
passed in as `resp`.  Model selection and parameter shaping happen inside
the try block; when the style lookup produced an inherited non-string,
`modelName.includes` throws a TypeError before any AI call.  Every thrown
message is rewrapped by the catch block as `Image generation failed: ...`.
Also returns the `env.AI.run` calls issued (none on the TypeError path). -/
def generateArtwork (prompt style : String) (resp : AIResponse) :
    Except String String × List ArtCall :=
  match getModelByStyle style with
  | .inheritedFn _ =>
    (.error "Image generation failed: modelName.includes is not a function", [])
  | .str modelName =>
    let params := getModelParameters modelName prompt
    (match normalizeAIResponse resp with
     | .ok url => .ok url
     | .error m => .error ("Image generation failed: " ++ m),
     [.aiRun modelName params])

/-- `handleArtGeneration`, with the parsed request body and both upstream
responses passed in; `stack` and `ts` stand for the runtime stack trace and
`new Date().toISOString()`.  Note the handler logs `weatherData.location`
before validating, so an absent `weatherData` throws a TypeError rather
than the validation error.  Returns HTTP status, JSON body, and the
outbound calls issued. -/
def handleArtGeneration (req : ArtRequest) (geminiKey : String)
    (resp : GeminiResponse) (ai : AIResponse) (stack ts : String) :
    Nat × ArtBody × List ArtCall :=
  match req.weatherData with
  | none =>
    (500, .err "Cannot read properties of undefined (reading 'location')" stack ts, [])
  | some wd =>
    match wd.forecast with
    | none => (500, .err "Invalid weather data provided" stack ts, [])
    | some fc =>
      let promptOut := generateArtPrompt wd.location fc geminiKey resp
      match promptOut.1 with
      | .error m => (500, .err m stack ts, [promptOut.2])
      | .ok artPrompt =>
        let artOut := generateArtwork artPrompt req.artisticStyle ai
        match artOut.1 with
        | .error m => (500, .err m stack ts, promptOut.2 :: artOut.2)
        | .ok url =>
          (200, .ok artPrompt url wd artPrompt.length req.artisticStyle ts,
           promptOut.2 :: artOut.2)

/-! ## Helper lemmas and spec-side definitions -/

deriving instance DecidableEq for Except

/-- The field-by-field per-entry mapping described by the spec, on a
well-formed item (the first `weather` entry taken via `headI`); used to
compare `fetchWeatherData`'s output against the spec's description. -/
def forecastPointOfItem (it : ForecastItem) : ForecastPoint :=
  { datetime := it.dt_txt
    temperature := jsRound it.temp
    humidity := it.humidity
    pressure := it.pressure
    description := it.weather.headI.description
    main := it.weather.headI.main
    icon := it.weather.headI.icon
    windSpeed := it.windSpeed
    windDirection := it.windDeg
    clouds := it.cloudsAll }

/-- A sample weather-array entry for concrete witnesses. -/
def sampleWeatherInfo : WeatherInfo := ⟨"light rain", "Rain", "10d"⟩

/-- A sample forecast interval entry for concrete witnesses. -/
def sampleItem (n : Nat) : ForecastItem :=
  ⟨"2026-10-11 " ++ toString n ++ ":00:00", (41 : Rat)/2, 80, 1013,
   [sampleWeatherInfo], (7 : Rat)/2, 180, 75⟩

/-- A sample 9-entry forecast interval list. -/
def sampleItems : List ForecastItem := (List.range 9).map sampleItem

theorem truthyOpt_some (v : JSVal) : truthyOpt (some v) = truthyJS v := rfl

theorem truthyOpt_none : truthyOpt (none : Option JSVal) = false := rfl

theorem mapForecastList_eq_map (l : List ForecastItem)
    (h : ∀ it ∈ l, it.weather ≠ []) :
    mapForecastList l = some (l.map forecastPointOfItem) := by
  induction l with
  | nil => rfl
  | cons a t ih =>
    have ha : a.weather ≠ [] := h a (List.mem_cons_self a t)
    have ht : ∀ it ∈ t, it.weather ≠ [] := fun it hit => h it (List.mem_cons_of_mem a hit)
    cases hw : a.weather with
    | nil => exact absurd hw ha
    | cons w ws =>
      simp [mapForecastList, mapForecastItemJS, hw, ih ht, forecastPointOfItem, List.headI]

/-! ## Claims -/

/-- C2: for every successful forecast-provider response with more than 8
interval entries (and a nonempty geocoding match list, each used entry
well-formed), the returned WeatherReport's forecast has exactly 8 entries,
the first 8 provider entries in original order, each mapped field-by-field
(datetime, integer-rounded temperature, humidity, pressure, description,
main, icon, wind speed/direction, cloud cover). -/
theorem fetchWeatherData_truncates (loc key : String) (geo : List GeoMatch)
    (w : List ForecastItem) (hg : geo ≠ []) (hn : 8 < w.length)
    (hw : ∀ it ∈ w.take 8, it.weather ≠ []) :
    ∃ r, (fetchWeatherData loc key geo w).1 = .ok r ∧
      r.forecast.length = 8 ∧
      r.forecast = (w.take 8).map forecastPointOfItem := by
  cases geo with
  | nil => exact absurd rfl hg
  | cons g rest =>
    refine ⟨{ location := g.name ++ ", " ++ g.country
              coordinates := { lat := g.lat, lon := g.lon }
              forecast := (w.take 8).map forecastPointOfItem }, ?_, ?_, rfl⟩
    · simp [fetchWeatherData, mapForecastList_eq_map (w.take 8) hw]
    · simp only [List.length_map, List.length_take]
      omega

theorem fetchWeatherData_truncates_witness :
    ∃ r, (fetchWeatherData "Paris" "k" [⟨(487 : Rat)/10, (12 : Rat)/5, "Paris", "FR"⟩]
            sampleItems).1 = .ok r ∧
      r.forecast.length = 8 ∧
      r.forecast = (sampleItems.take 8).map forecastPointOfItem :=
  fetchWeatherData_truncates "Paris" "k" _ sampleItems (by decide) (by decide) (by decide)

/-- C3 (amended): each of the four style keywords selects its fixed model
identifier and fixed parameter set (flux: num_steps 4; lightning: num_steps
8; dreamshaper: num_steps 8 and guidance 7.5; default stable-diffusion:
num_steps 20, guidance 7.5, strength 1; every set includes the prompt), and
every other style keyword that is not the name of an inherited
`Object.prototype` member resolves to the default model
`@cf/stabilityai/stable-diffusion-xl-base-1.0`.  (For the twelve inherited
property names, such as `toString`, the JS lookup yields a truthy
non-string and the Renderer throws instead of falling back — see the
counterexample.) -/
theorem getModelByStyle_table (style prompt : String)
    (h1 : style ≠ "stable-diffusion") (h2 : style ≠ "flux")
    (h3 : style ≠ "dreamshaper") (h4 : style ≠ "realistic")
    (hp : style ∉ objectPrototypeProps) :
    getModelByStyle "stable-diffusion" = .str "@cf/stabilityai/stable-diffusion-xl-base-1.0" ∧
    getModelByStyle "flux" = .str "@cf/black-forest-labs/flux-1-schnell" ∧
    getModelByStyle "dreamshaper" = .str "@cf/lykon/dreamshaper-8-lcm" ∧
    getModelByStyle "realistic" = .str "@cf/bytedance/stable-diffusion-xl-lightning" ∧
    getModelParameters "@cf/black-forest-labs/flux-1-schnell" prompt =
      { prompt := prompt, num_steps := 4, guidance := none, strength := none } ∧
    getModelParameters "@cf/bytedance/stable-diffusion-xl-lightning" prompt =
      { prompt := prompt, num_steps := 8, guidance := none, strength := none } ∧
    getModelParameters "@cf/lykon/dreamshaper-8-lcm" prompt =
      { prompt := prompt, num_steps := 8, guidance := some (7.5 : Rat), strength := none } ∧
    getModelParameters "@cf/stabilityai/stable-diffusion-xl-base-1.0" prompt =
      { prompt := prompt, num_steps := 20, guidance := some (7.5 : Rat), strength := some 1 } ∧
    getModelByStyle style = .str "@cf/stabilityai/stable-diffusion-xl-base-1.0" := by
  refine ⟨rfl, rfl, rfl, rfl, rfl, rfl, rfl, rfl, ?_⟩
  simp [getModelByStyle, h1, h2, h3, h4, hp]

theorem getModelByStyle_table_witness :
    getModelByStyle "watercolor" = .str "@cf/stabilityai/stable-diffusion-xl-base-1.0" :=
  (getModelByStyle_table "watercolor" "p" (by decide) (by decide) (by decide)
    (by decide) (by decide)).2.2.2.2.2.2.2.2

/-- C3 counterexample: the style keyword `toString` is outside the four, yet
the Renderer does not resolve to the default model — the JS table lookup
finds the inherited `Object.prototype.toString`, and `generateArtwork`
then throws (`modelName.includes is not a function`) without calling the
image model, even on a response that would otherwise normalize fine. -/
theorem getModelByStyle_proto_counterexample :
    getModelByStyle "toString" ≠ .str "@cf/stabilityai/stable-diffusion-xl-base-1.0" ∧
    (generateArtwork "p" "toString" (.uint8 [0])).1 =
      .error "Image generation failed: modelName.includes is not a function" ∧
    (generateArtwork "p" "toString" (.uint8 [0])).2 = [] := by
  exact ⟨by decide, rfl, rfl⟩

/-- C4 (amended): when the Synthesizer's upstream call returns a non-success
status whose body contains `{error:{message:"X"}}` with `X` nonempty,
`generateArtPrompt` fails and the surfaced message is the provider's
message with the fixed prefix `Gemini API error: ` prepended — i.e.
`Gemini API error: X` — not `X` verbatim. -/
theorem generateArtPrompt_upstream_error (loc : String) (fc : List ForecastPoint)
    (key : String) (resp : GeminiResponse) (X : String)
    (hok : resp.ok = false) (hmsg : resp.errorMessage = some X) (hX : X ≠ "") :
    (generateArtPrompt loc fc key resp).1 = .error ("Gemini API error: " ++ X) := by
  simp [generateArtPrompt, hok, hmsg, hX]

theorem generateArtPrompt_upstream_error_witness :
    (generateArtPrompt "Lyon, FR" [] "k" ⟨false, some "quota exceeded", none⟩).1 =
      .error ("Gemini API error: " ++ "quota exceeded") :=
  generateArtPrompt_upstream_error "Lyon, FR" [] "k" _ "quota exceeded" rfl rfl (by decide)

/-- C4 counterexample: on a non-success upstream response with
`{error:{message:"X"}}`, the surfaced message is `Gemini API error: X`,
which is not equal to `X` — the provider's message is not passed through
verbatim. -/
theorem generateArtPrompt_error_not_verbatim :
    (generateArtPrompt "Lyon, FR" [] "k" ⟨false, some "X", none⟩).1 =
      .error "Gemini API error: X" ∧
    "Gemini API error: X" ≠ "X" := by
  exact ⟨rfl, by decide⟩

/-- C5 (amended): a POST /api/generate-art request whose `weatherData` is
missing or lacks a forecast sequence fails before any upstream model call
(the outbound-call list is empty) and surfaces as HTTP 500 — not 400 —
with a JSON body of shape `{error, stack, timestamp}`; when the forecast is
what is missing, the message is the validation message
`Invalid weather data provided` (when `weatherData` itself is missing, the
pre-validation log line throws a TypeError first). -/
theorem handleArtGeneration_validation (req : ArtRequest) (gk : String)
    (resp : GeminiResponse) (ai : AIResponse) (stack ts : String)
    (h : req.weatherData = none ∨
         ∃ wd, req.weatherData = some wd ∧ wd.forecast = none) :
    (handleArtGeneration req gk resp ai stack ts).1 = 500 ∧
    (handleArtGeneration req gk resp ai stack ts).2.2 = [] ∧
    (∃ m, (handleArtGeneration req gk resp ai stack ts).2.1 = .err m stack ts) ∧
    (∀ wd, req.weatherData = some wd → wd.forecast = none →
      (handleArtGeneration req gk resp ai stack ts).2.1 =
        .err "Invalid weather data provided" stack ts) := by
  obtain ⟨owd, style⟩ := req
  rcases h with h | ⟨wd, hwd, hfc⟩
  · simp only at h
    subst h
    refine ⟨rfl, rfl, ⟨_, rfl⟩, ?_⟩
    intro wd hwd
    exact absurd hwd (by simp)
  · simp only at hwd
    subst hwd
    refine ⟨?_, ?_, ⟨"Invalid weather data provided", ?_⟩, ?_⟩
    · simp [handleArtGeneration, hfc]
    · simp [handleArtGeneration, hfc]
    · simp [handleArtGeneration, hfc]
    · intro wd' hwd' _
      simp only at hwd'
      cases hwd'
      simp [handleArtGeneration, hfc]

theorem handleArtGeneration_validation_witness :
    (handleArtGeneration ⟨none, "flux"⟩ "gk" ⟨true, none, some "t"⟩
        (.uint8 []) "stk" "ts").1 = 500 ∧
    (handleArtGeneration ⟨none, "flux"⟩ "gk" ⟨true, none, some "t"⟩
        (.uint8 []) "stk" "ts").2.2 = [] := by
  have h := handleArtGeneration_validation ⟨none, "flux"⟩ "gk" ⟨true, none, some "t"⟩
    (.uint8 []) "stk" "ts" (Or.inl rfl)
  exact ⟨h.1, h.2.1⟩

/-- C5 counterexample: a request whose `weatherData` lacks the forecast
sequence is rejected with HTTP 500, not the claimed HTTP 400 (no upstream
call is made). -/
theorem handleArtGeneration_validation_status_counterexample :
    (handleArtGeneration ⟨some ⟨"Paris, FR", none⟩, "flux"⟩ "gk"
        ⟨true, none, some "t"⟩ (.uint8 []) "stk" "ts").1 = 500 ∧
    (500 : Nat) ≠ 400 ∧
    (handleArtGeneration ⟨some ⟨"Paris, FR", none⟩, "flux"⟩ "gk"
        ⟨true, none, some "t"⟩ (.uint8 []) "stk" "ts").2.2 = [] := by
  exact ⟨rfl, by decide, rfl⟩

/-- C6: when the geocoding lookup returns zero matches, `fetchWeatherData`
fails with the NotFoundError message `Location not found` and the only
outbound HTTP call issued is the geocoding call; moreover on any nonempty
match list the outcome depends only on the first match (the tail is never
consulted). -/
theorem fetchWeatherData_zero_matches (loc key : String) (w : List ForecastItem) :
    fetchWeatherData loc key [] w =
      (.error "Location not found",
       ["https://api.openweathermap.org/geo/1.0/direct?q=" ++
        encodeURIComponentModel loc ++ "&limit=1&appid=" ++ key]) ∧
    ∀ (g : GeoMatch) (rest rest' : List GeoMatch),
      fetchWeatherData loc key (g :: rest) w = fetchWeatherData loc key (g :: rest') w :=
  ⟨rfl, fun _ _ _ => rfl⟩

/-- C8: POST /api/weather with a missing (or falsy) `location` returns HTTP
400 with a JSON error body and makes no outbound call; when the resolver
throws, the handler returns HTTP 500 with a JSON body carrying the error
message; when the resolver succeeds, it returns the WeatherReport as JSON
with status 200. -/
theorem handleWeatherRequest_spec (key : String) (geo : List GeoMatch)
    (w : List ForecastItem) :
    handleWeatherRequest none key geo w = (400, .err "Location is required", []) ∧
    handleWeatherRequest (some "") key geo w = (400, .err "Location is required", []) ∧
    (∀ loc m, loc ≠ "" → (fetchWeatherData loc key geo w).1 = .error m →
      handleWeatherRequest (some loc) key geo w =
        (500, .err m, (fetchWeatherData loc key geo w).2)) ∧
    (∀ loc r, loc ≠ "" → (fetchWeatherData loc key geo w).1 = .ok r →
      handleWeatherRequest (some loc) key geo w =
        (200, .report r, (fetchWeatherData loc key geo w).2)) ∧
    (∀ loc, loc ≠ "" → geo = [] →
      handleWeatherRequest (some loc) key geo w =
        (500, .err "Location not found",
         ["https://api.openweathermap.org/geo/1.0/direct?q=" ++
          encodeURIComponentModel loc ++ "&limit=1&appid=" ++ key])) := by
  refine ⟨rfl, rfl, ?_, ?_, ?_⟩
  · intro loc m hloc hm
    simp [handleWeatherRequest, hloc, hm]
  · intro loc r hloc hr
    simp [handleWeatherRequest, hloc, hr]
  · intro loc hloc hgeo
    subst hgeo
    simp [handleWeatherRequest, hloc, fetchWeatherData]

theorem handleWeatherRequest_spec_witness :
    handleWeatherRequest none "k" [] [] = (400, .err "Location is required", []) ∧
    handleWeatherRequest (some "Atlantis") "k" [] [] =
      (500, .err "Location not found",
       ["https://api.openweathermap.org/geo/1.0/direct?q=" ++
        encodeURIComponentModel "Atlantis" ++ "&limit=1&appid=" ++ "k"]) := by
  have h := handleWeatherRequest_spec "k" [] []
  exact ⟨h.1, h.2.2.2.2 "Atlantis" (by decide) rfl⟩

/-- C1 (amended): for a run whose style resolved to a model-identifier
string, every recognized image-backend response shape normalizes to a
`data:image/png;base64,<payload>` string: a raw `Uint8Array` or
`ArrayBuffer` is base64-encoded directly; an object with a truthy `image`
field wins over `result.image` and `data`; `result.image` wins over `data`;
binary payloads are base64-encoded and a string payload is used as the
base64 content unchanged in the `image` and `result.image` branches.  In
the `data` branch only binary payloads normalize unconditionally: a string
payload is coerced through the `Uint8Array` constructor instead of being
passed through — empty for non-numeric strings, zero-filled for numeric
ones, and a RangeError failure for negative or over-large values (see the
counterexample and C10). -/
theorem generateArtwork_shapes (bytes : List Nat) (v : JSVal) (s : String)
    (prompt style modelName : String)
    (hsty : getModelByStyle style = .str modelName)
    (hv : truthyJS v = true) :
    (generateArtwork prompt style (.uint8 bytes)).1 =
      .ok ("data:image/png;base64," ++ base64Encode bytes) ∧
    (generateArtwork prompt style (.arrayBuf bytes)).1 =
      .ok ("data:image/png;base64," ++ base64Encode bytes) ∧
    (∀ r d e, (generateArtwork prompt style (.obj ⟨some v, r, d, e⟩)).1 =
      .ok ("data:image/png;base64," ++ encodeImageField v)) ∧
    (∀ i d e, truthyOpt i = false →
      (generateArtwork prompt style (.obj ⟨i, some (some v), d, e⟩)).1 =
        .ok ("data:image/png;base64," ++ encodeResultImageField v)) ∧
    (∀ i r e b, truthyOpt i = false → truthyOpt (r.getD none) = false →
      (generateArtwork prompt style (.obj ⟨i, r, some (.u8 b), e⟩)).1 =
        .ok ("data:image/png;base64," ++ base64Encode b) ∧
      (generateArtwork prompt style (.obj ⟨i, r, some (.abuf b), e⟩)).1 =
        .ok ("data:image/png;base64," ++ base64Encode b)) ∧
    encodeImageField (.str s) = s ∧
    encodeResultImageField (.str s) = s ∧
    (∀ b, encodeImageField (.u8 b) = base64Encode b ∧
          encodeImageField (.abuf b) = base64Encode b ∧
          encodeResultImageField (.u8 b) = base64Encode b ∧
          encodeResultImageField (.abuf b) = base64Encode b ∧
          encodeDataField (.u8 b) = .ok (base64Encode b) ∧
          encodeDataField (.abuf b) = .ok (base64Encode b)) := by
  refine ⟨?_, ?_, ?_, ?_, ?_, rfl, rfl, fun b => ⟨rfl, rfl, rfl, rfl, rfl, rfl⟩⟩
  · simp [generateArtwork, hsty, normalizeAIResponse]
  · simp [generateArtwork, hsty, normalizeAIResponse]
  · intro r d e
    simp [generateArtwork, hsty, normalizeAIResponse, normalizeObjResponse,
      truthyOpt_some, hv]
  · intro i d e hi
    simp [generateArtwork, hsty, normalizeAIResponse, normalizeObjResponse,
      hi, truthyOpt_some, hv]
  · intro i r e b hi hr
    constructor <;>
      simp [generateArtwork, hsty, normalizeAIResponse, normalizeObjResponse,
        hi, hr, truthyOpt_some, truthyJS, encodeDataField]

theorem generateArtwork_shapes_witness :
    (generateArtwork "p" "flux" (.uint8 [7])).1 =
      .ok ("data:image/png;base64," ++ base64Encode [7]) ∧
    (generateArtwork "p" "flux" (.obj ⟨some (.str "img64"), none, some (.u8 [1]), []⟩)).1 =
      .ok ("data:image/png;base64," ++ encodeImageField (.str "img64")) := by
  have h := generateArtwork_shapes [7] (.str "img64") "x" "p" "flux"
    "@cf/black-forest-labs/flux-1-schnell" rfl (by decide)
  exact ⟨h.1, h.2.2.1 none (some (.u8 [1])) []⟩

/-- C1 counterexample: an object response whose only payload is a string in
the `data` field does not get that string as base64 content — the `data`
branch coerces the string through `new Uint8Array(...)`, producing an empty
payload instead of `data:image/png;base64,abc`. -/
theorem generateArtwork_data_string_not_passthrough :
    (generateArtwork "p" "flux" (.obj ⟨none, none, some (.str "abc"), []⟩)).1 =
      .ok "data:image/png;base64," ∧
    "data:image/png;base64," ≠ "data:image/png;base64," ++ "abc" := by
  exact ⟨by decide, by decide⟩

/-- C7: when none of the recognized shapes is present (null-free object
response, no truthy `image`, `result.image` or `data`), `generateArtwork`
fails with the wrapped message `Image generation failed: No image data in
AI response...` and the surrounding /api/generate-art request returns HTTP
500 with a JSON body of shape `{error, stack, timestamp}` carrying that
message. -/
theorem generateArtwork_unrecognized (o : JSObj)
    (prompt style modelName loc : String) (fc : List ForecastPoint)
    (gk t stack ts : String)
    (hsty : getModelByStyle style = .str modelName)
    (h1 : truthyOpt o.image = false)
    (h2 : truthyOpt (o.result.getD none) = false)
    (h3 : truthyOpt o.data = false) :
    (generateArtwork prompt style (.obj o)).1 =
      .error ("Image generation failed: " ++
        ("No image data in AI response. Response keys: " ++
          String.intercalate ", " (objKeys o))) ∧
    (handleArtGeneration ⟨some ⟨loc, some fc⟩, style⟩ gk ⟨true, none, some t⟩
        (.obj o) stack ts).1 = 500 ∧
    (handleArtGeneration ⟨some ⟨loc, some fc⟩, style⟩ gk ⟨true, none, some t⟩
        (.obj o) stack ts).2.1 =
      .err ("Image generation failed: " ++
        ("No image data in AI response. Response keys: " ++
          String.intercalate ", " (objKeys o))) stack ts := by
  have key : ∀ p : String, (generateArtwork p style (.obj o)).1 =
      .error ("Image generation failed: " ++
        ("No image data in AI response. Response keys: " ++
          String.intercalate ", " (objKeys o))) := by
    intro p
    simp [generateArtwork, hsty, normalizeAIResponse, normalizeObjResponse, h1, h2, h3]
  refine ⟨key prompt, ?_, ?_⟩
  · simp [handleArtGeneration, generateArtPrompt, key t]
  · simp [handleArtGeneration, generateArtPrompt, key t]

theorem generateArtwork_unrecognized_witness :
    (generateArtwork "p" "flux" (.obj ⟨none, none, none, ["output"]⟩)).1 =
      .error ("Image generation failed: " ++
        ("No image data in AI response. Response keys: " ++
          String.intercalate ", " (objKeys ⟨none, none, none, ["output"]⟩))) ∧
    (handleArtGeneration ⟨some ⟨"Paris, FR", some []⟩, "flux"⟩ "gk"
        ⟨true, none, some "t"⟩ (.obj ⟨none, none, none, ["output"]⟩) "stk" "ts").1 = 500 := by
  have h := generateArtwork_unrecognized ⟨none, none, none, ["output"]⟩ "p" "flux"
    "@cf/black-forest-labs/flux-1-schnell" "Paris, FR" [] "gk" "t" "stk" "ts"
    rfl rfl rfl rfl
  exact ⟨h.1, h.2.1⟩

/-- C10 (amended): for responses of shape `{data: s}` with `s` a nonempty
string, the string's characters are never used as the payload: the `data`
branch builds a `Uint8Array` from the string via `ToIndex(ToNumber(s))` —
when that coercion yields a length, the payload is that many zero bytes
(in particular exactly the degenerate URL `data:image/png;base64,` for
every string that is NaN under `ToNumber`, such as a typical base64
string); when it throws a RangeError (negative or over-large values, e.g.
`"-1"`), generateArtwork fails with the wrapped RangeError instead; and the
empty string is falsy, skips the branch, and ends in the GenerationError. -/
theorem generateArtwork_data_string (s prompt style modelName : String)
    (hsty : getModelByStyle style = .str modelName) (hs : s ≠ "") :
    (∀ bytes, jsUint8ArrayOfString s = .ok bytes →
      (generateArtwork prompt style (.obj ⟨none, none, some (.str s), []⟩)).1 =
        .ok ("data:image/png;base64," ++ base64Encode bytes)) ∧
    (∀ msg, jsUint8ArrayOfString s = .error msg →
      (generateArtwork prompt style (.obj ⟨none, none, some (.str s), []⟩)).1 =
        .error ("Image generation failed: " ++ msg)) ∧
    (jsToNumber s = .nan →
      (generateArtwork prompt style (.obj ⟨none, none, some (.str s), []⟩)).1 =
        .ok "data:image/png;base64,") ∧
    (generateArtwork prompt style (.obj ⟨none, none, some (.str ""), []⟩)).1 =
      .error "Image generation failed: No image data in AI response. Response keys: data" := by
  have hok : ∀ bytes, jsUint8ArrayOfString s = .ok bytes →
      (generateArtwork prompt style (.obj ⟨none, none, some (.str s), []⟩)).1 =
        .ok ("data:image/png;base64," ++ base64Encode bytes) := by
    intro bytes hb
    simp [generateArtwork, hsty, normalizeAIResponse, normalizeObjResponse,
      truthyOpt, truthyJS, hs, encodeDataField, hb, Except.map]
  refine ⟨hok, ?_, ?_, ?_⟩
  · intro msg hm
    simp [generateArtwork, hsty, normalizeAIResponse, normalizeObjResponse,
      truthyOpt, truthyJS, hs, encodeDataField, hm, Except.map]
  · intro hn
    have h0 : jsUint8ArrayOfString s = .ok [] := by
      simp [jsUint8ArrayOfString, hn, jsToIndex, Except.map]
    rw [hok [] h0]
    decide
  · simp only [generateArtwork, hsty]
    decide

theorem generateArtwork_data_string_witness :
    (generateArtwork "p" "flux" (.obj ⟨none, none, some (.str "iVBORw0KQQ=="), []⟩)).1 =
      .ok "data:image/png;base64," ∧
    (generateArtwork "p" "flux" (.obj ⟨none, none, some (.str "-1"), []⟩)).1 =
      .error ("Image generation failed: " ++ "Invalid typed array length: -1") := by
  have h1 := generateArtwork_data_string "iVBORw0KQQ==" "p" "flux"
    "@cf/black-forest-labs/flux-1-schnell" rfl (by decide)
  have h2 := generateArtwork_data_string "-1" "p" "flux"
    "@cf/black-forest-labs/flux-1-schnell" rfl (by decide)
  exact ⟨h1.2.2.1 (by decide), h2.2.1 "Invalid typed array length: -1" (by decide)⟩

/-- C10 counterexample: for `{data: "5"}` the returned value is not the
degenerate `data:image/png;base64,` — the string `"5"` is coerced to a
length, producing five zero bytes and the payload `AAAAAAA=`. -/
theorem generateArtwork_data_numeric_string_counterexample :
    (generateArtwork "p" "flux" (.obj ⟨none, none, some (.str "5"), []⟩)).1 =
      .ok "data:image/png;base64,AAAAAAA=" ∧
    "data:image/png;base64,AAAAAAA=" ≠ "data:image/png;base64," := by
  exact ⟨by decide, by decide⟩

theorem fetchWeatherData_result_key (l k1 k2 : String) (geo : List GeoMatch)
    (w : List ForecastItem) :
    (fetchWeatherData l k1 geo w).1 = (fetchWeatherData l k2 geo w).1 := by
  cases geo with
  | nil => rfl
  | cons g rest =>
    cases h : mapForecastList (w.take 8) <;> simp [fetchWeatherData, h]

theorem generateArtPrompt_result_key (loc : String) (fc : List ForecastPoint)
    (k1 k2 : String) (resp : GeminiResponse) :
    (generateArtPrompt loc fc k1 resp).1 = (generateArtPrompt loc fc k2 resp).1 := by
  obtain ⟨ok, em, ct⟩ := resp
  cases ok <;> cases ct <;> cases em <;> simp [generateArtPrompt]

theorem handleWeatherRequest_key (loc : Option String) (k1 k2 : String)
    (geo : List GeoMatch) (w : List ForecastItem) :
    (handleWeatherRequest loc k1 geo w).1 = (handleWeatherRequest loc k2 geo w).1 ∧
    (handleWeatherRequest loc k1 geo w).2.1 = (handleWeatherRequest loc k2 geo w).2.1 := by
  cases loc with
  | none => exact ⟨rfl, rfl⟩
  | some l =>
    by_cases hl : l = ""
    · subst hl
      exact ⟨rfl, rfl⟩
    · have h := fetchWeatherData_result_key l k1 k2 geo w
      simp only [handleWeatherRequest, if_neg hl]
      rw [h]
      cases (fetchWeatherData l k2 geo w).1 <;> exact ⟨rfl, rfl⟩

theorem handleArtGeneration_key (req : ArtRequest) (k1 k2 : String)
    (resp : GeminiResponse) (ai : AIResponse) (stack ts : String) :
    (handleArtGeneration req k1 resp ai stack ts).1 =
      (handleArtGeneration req k2 resp ai stack ts).1 ∧
    (handleArtGeneration req k1 resp ai stack ts).2.1 =
      (handleArtGeneration req k2 resp ai stack ts).2.1 := by
  obtain ⟨owd, style⟩ := req
  cases owd with
  | none => exact ⟨rfl, rfl⟩
  | some wd =>
    cases hfc : wd.forecast with
    | none => simp [handleArtGeneration, hfc]
    | some fc =>
      have h := generateArtPrompt_result_key wd.location fc k1 k2 resp
      cases hp : (generateArtPrompt wd.location fc k2 resp).1 with
      | error m =>
        rw [hp] at h
        simp [handleArtGeneration, hfc, h, hp]
      | ok t =>
        rw [hp] at h
        cases ha : (generateArtwork t style ai).1 <;>
          simp [handleArtGeneration, hfc, h, hp, ha]

/-- C9: varying only the credentials never changes the client-visible
response.  With all upstream results held fixed, the HTTP status and JSON
body of `handleWeatherRequest` are identical under any two values of
OPENWEATHER_API_KEY, and those of `handleArtGeneration` are identical under
any two values of GEMINI_API_KEY — the credentials flow only into the
outbound request URLs / headers, never into a response, on the success path
and on every error path.  (Each handler reads exactly one of the two
credentials; the other cannot appear anywhere in its run.) -/
theorem credentials_never_in_response (loc : Option String) (k1 k2 : String)
    (geo : List GeoMatch) (w : List ForecastItem) (req : ArtRequest)
    (gk1 gk2 : String) (resp : GeminiResponse) (ai : AIResponse) (stack ts : String) :
    ((handleWeatherRequest loc k1 geo w).1 = (handleWeatherRequest loc k2 geo w).1 ∧
     (handleWeatherRequest loc k1 geo w).2.1 = (handleWeatherRequest loc k2 geo w).2.1) ∧
    ((handleArtGeneration req gk1 resp ai stack ts).1 =
       (handleArtGeneration req gk2 resp ai stack ts).1 ∧
     (handleArtGeneration req gk1 resp ai stack ts).2.1 =
       (handleArtGeneration req gk2 resp ai stack ts).2.1) :=
  ⟨handleWeatherRequest_key loc k1 k2 geo w,
   handleArtGeneration_key req gk1 gk2 resp ai stack ts⟩
